import Mathlib

/-!
# Serial port device (win32 backend) of arduide

A shallow embedding of `src/utils/win32/Serial.cpp`.  The device object is a
record of its C++ members together with the two pieces of `QIODevice` state the
code reads and writes (open mode and error string).  Every call into the
operating system is recorded as an `Event`, and the values the operating system
hands back are explicit arguments of each operation, so that every statement is
quantified over all possible answers.
-/

namespace Arduide

/-! ## Platform types and constants -/

/-- A win32 `HANDLE`, seen as an integer. -/
abbrev HANDLE := Int

/-- A win32 `DWORD`. -/
abbrev DWORD := Nat

/-- The flag set `QIODevice::OpenMode`. -/
abbrev OpenMode := Nat

/-- Modelled from the spec: the invalid-handle marker declared in `Serial.h`;
on win32 it is `INVALID_HANDLE_VALUE`, the all-ones pointer. -/
def INVALID_SERIAL_DESCRIPTOR : HANDLE := -1

/-- `QIODevice::NotOpen`. -/
def NotOpen : OpenMode := 0
/-- `QIODevice::ReadOnly`. -/
def ReadOnly : OpenMode := 1
/-- `QIODevice::WriteOnly`. -/
def WriteOnly : OpenMode := 2
/-- `QIODevice::ReadWrite`, which is `ReadOnly | WriteOnly`. -/
def ReadWrite : OpenMode := 3

/-- Access right `GENERIC_READ` of `CreateFile`. -/
def GENERIC_READ : DWORD := 0x80000000
/-- Access right `GENERIC_WRITE` of `CreateFile`. -/
def GENERIC_WRITE : DWORD := 0x40000000
/-- Creation disposition `OPEN_EXISTING`. -/
def OPEN_EXISTING : DWORD := 3
/-- File flag `FILE_FLAG_OVERLAPPED`. -/
def FILE_FLAG_OVERLAPPED : DWORD := 0x40000000
/-- `EscapeCommFunction` code raising DTR. -/
def SETDTR : DWORD := 5
/-- `EscapeCommFunction` code lowering DTR. -/
def CLRDTR : DWORD := 6

def CBR_300 : DWORD := 300
def CBR_1200 : DWORD := 1200
def CBR_2400 : DWORD := 2400
def CBR_4800 : DWORD := 4800
def CBR_9600 : DWORD := 9600
def CBR_19200 : DWORD := 19200
def CBR_38400 : DWORD := 38400
def CBR_57600 : DWORD := 57600
def CBR_115200 : DWORD := 115200

/-- The win32 device control block `DCB`, field by field. -/
structure DCB where
  DCBlength : Nat
  BaudRate : DWORD
  fBinary : Nat
  fParity : Nat
  fOutxCtsFlow : Nat
  fOutxDsrFlow : Nat
  fDtrControl : Nat
  fDsrSensitivity : Nat
  fTXContinueOnXoff : Nat
  fOutX : Nat
  fInX : Nat
  fErrorChar : Nat
  fNull : Nat
  fRtsControl : Nat
  fAbortOnError : Nat
  fDummy2 : Nat
  wReserved : Nat
  XonLim : Nat
  XoffLim : Nat
  ByteSize : Nat
  Parity : Nat
  StopBits : Nat
  XonChar : Nat
  XoffChar : Nat
  ErrorChar : Nat
  EofChar : Nat
  EvtChar : Nat
  wReserved1 : Nat
deriving DecidableEq, Repr

/-! ## Events -/

/-- One observable action of the device: a call into the operating system with
its arguments (and, where the code looks at it, the value handed back), or the
`aboutToClose` signal. -/
inductive Event where
  | CreateFile (lpFileName : String) (dwDesiredAccess dwShareMode
      dwCreationDisposition dwFlagsAndAttributes : DWORD) (result : HANDLE)
  | GetCommState (hFile : HANDLE) (ok : Bool)
  | SetCommState (hFile : HANDLE) (dcb : DCB) (ok : Bool)
  | CloseHandle (hObject : HANDLE)
  | GetLastError (code : DWORD)
  | FormatMessage (dwMessageId : DWORD)
  | LocalFree
  | ReadFile (hFile : HANDLE) (nNumberOfBytesToRead : DWORD) (result : Option DWORD)
  | WriteFile (hFile : HANDLE) (lpBuffer : List Nat) (nNumberOfBytesToWrite : DWORD)
      (result : Option DWORD)
  | EscapeCommFunction (hFile : HANDLE) (dwFunc : DWORD) (ok : Bool)
  | aboutToClose
deriving DecidableEq, Repr

/-- The event is a call that acquires a handle: a `CreateFile` that did not
return the invalid marker. -/
def Event.acquires (h : HANDLE) : Event → Bool
  | .CreateFile _ _ _ _ _ r => r = h && r ≠ INVALID_SERIAL_DESCRIPTOR
  | _ => false

/-- The event is the release of handle `h`. -/
def Event.releases (h : HANDLE) : Event → Bool
  | .CloseHandle r => r = h
  | _ => false

/-- Handles the operating system holds open after one more event. -/
def applyEvent (live : List HANDLE) : Event → List HANDLE
  | .CreateFile _ _ _ _ _ r => if r = INVALID_SERIAL_DESCRIPTOR then live else r :: live
  | .CloseHandle h => live.filter (fun x => x ≠ h)
  | _ => live

/-- Handles the operating system holds open after a trace of events. -/
def liveAfter (live : List HANDLE) (trace : List Event) : List HANDLE :=
  trace.foldl applyEvent live

/-! ## Device state -/

/-- The device: the members of class `Serial` and the `QIODevice` state its
methods use. -/
structure Serial where
  mPort : String
  mBaudRate : Int
  mSerial : HANDLE
  openMode : OpenMode
  errorString : String
  inReadEventMode : Bool
deriving DecidableEq, Repr

/-- What a method call yields: its return value, the device afterwards and the
events it produced, oldest first. -/
structure Outcome (α : Type) where
  ret : α
  dev : Serial
  trace : List Event

/-- `QIODevice::isOpen`. -/
def Serial.isOpen (s : Serial) : Bool := s.openMode != NotOpen

/-- `QIODevice::setOpenMode`. -/
def Serial.setOpenMode (s : Serial) (m : OpenMode) : Serial := { s with openMode := m }

/-- `QIODevice::setErrorString`. -/
def Serial.setErrorString (s : Serial) (e : String) : Serial := { s with errorString := e }

/-- Modelled from the spec: `Serial::setInReadEventMode` lives in the shared
`Serial.cpp`, which is not part of the sources read here; it switches the
asynchronous read notification on or off. -/
def Serial.setInReadEventMode (s : Serial) (v : Bool) : Serial := { s with inReadEventMode := v }

/-- Modelled from the spec: the constructor lives in the shared `Serial.cpp`;
a device is constructed with a port name and baud rate and is not yet open. -/
def Serial.new (port : String) (baudRate : Int) : Serial :=
  { mPort := port, mBaudRate := baudRate, mSerial := INVALID_SERIAL_DESCRIPTOR,
    openMode := NotOpen, errorString := "", inReadEventMode := false }

/-! ## Message formatting -/

/-- `QObject::tr` when no translation catalogue is installed: the source text. -/
def tr (s : String) : String := s

/-- Substitution of the place marker `%0` on character lists. -/
def argChars : List Char → List Char → List Char
  | [], _ => []
  | [c], _ => [c]
  | c :: d :: rest, a =>
    if c = '%' ∧ d = '0' then a ++ argChars rest a else c :: argChars (d :: rest) a

/-- `QString::arg` for a template whose only place marker is `%0` and is not
followed by a digit: every occurrence of the marker is replaced by the argument,
which is not scanned again. -/
def arg (template a : String) : String := ⟨argChars template.data a.data⟩

/-- The `switch` over `mBaudRate` at the head of `Serial::open`: the `CBR_`
constant of an enumerated rate, or nothing in the `default` branch. -/
def baudSwitch (mBaudRate : Int) : Option DWORD :=
  if mBaudRate = 300 then some CBR_300
  else if mBaudRate = 1200 then some CBR_1200
  else if mBaudRate = 2400 then some CBR_2400
  else if mBaudRate = 4800 then some CBR_4800
  else if mBaudRate = 9600 then some CBR_9600
  else if mBaudRate = 19200 then some CBR_19200
  else if mBaudRate = 38400 then some CBR_38400
  else if mBaudRate = 57600 then some CBR_57600
  else if mBaudRate = 115200 then some CBR_115200
  else none

/-- The access rights `Serial::open` computes into `dwMode`. -/
def desiredAccess (mode : OpenMode) : DWORD :=
  let dwMode : DWORD := 0
  let dwMode := if mode &&& ReadOnly ≠ 0 then dwMode ||| GENERIC_READ else dwMode
  let dwMode := if mode &&& WriteOnly ≠ 0 then dwMode ||| GENERIC_READ else dwMode
  dwMode

/-- What the operating system answers during one call of `Serial::open`. -/
structure OpenAnswers where
  /-- The handle `CreateFile` returns. -/
  createFile : HANDLE
  /-- The control block `GetCommState` fills in, or nothing when it fails. -/
  getCommState : Option DCB
  /-- Whether `SetCommState` succeeds. -/
  setCommState : Bool
  /-- The code `GetLastError` returns. -/
  lastError : DWORD

/-- The `error:` exit of `Serial::open`: translate the last error code, store
the text, release the handle if one is held, fail.  `fmt` is the text
`FormatMessage` produces for a code. -/
def openError (fmt : DWORD → String) (dwErr : DWORD) (s : Serial) (trace : List Event) :
    Outcome Bool :=
  let s := s.setErrorString (fmt dwErr)
  let trace := trace ++ [Event.GetLastError dwErr, Event.FormatMessage dwErr, Event.LocalFree]
  if s.mSerial ≠ INVALID_SERIAL_DESCRIPTOR then
    { ret := false, dev := { s with mSerial := INVALID_SERIAL_DESCRIPTOR },
      trace := trace ++ [Event.CloseHandle s.mSerial] }
  else
    { ret := false, dev := s, trace := trace }

/-- The method `Serial::open`. -/
def Serial.open (fmt : DWORD → String) (os : OpenAnswers) (s : Serial) (mode : OpenMode) :
    Outcome Bool :=
  if s.isOpen then
    { ret := false, dev := s.setErrorString (arg (tr "Device (%0) already open") s.mPort),
      trace := [] }
  else
    match baudSwitch s.mBaudRate with
    | none =>
      { ret := false,
        dev := s.setErrorString (arg (tr "Unknown baud rate %0") (toString s.mBaudRate)),
        trace := [] }
    | some dwBaudRate =>
      let dwMode := desiredAccess mode
      let s := { s with mSerial := os.createFile }
      let t1 := [Event.CreateFile s.mPort dwMode 0 OPEN_EXISTING FILE_FLAG_OVERLAPPED s.mSerial]
      if s.mSerial = INVALID_SERIAL_DESCRIPTOR then openError fmt os.lastError s t1
      else
        match os.getCommState with
        | none => openError fmt os.lastError s (t1 ++ [Event.GetCommState s.mSerial false])
        | some dcb =>
          let t2 := t1 ++ [Event.GetCommState s.mSerial true]
          let dcb := { dcb with BaudRate := dwBaudRate }
          let t3 := t2 ++ [Event.SetCommState s.mSerial dcb os.setCommState]
          if os.setCommState = false then openError fmt os.lastError s t3
          else { ret := true, dev := s.setOpenMode mode, trace := t3 }

/-- The method `Serial::close`. -/
def Serial.close (s : Serial) : Outcome Unit :=
  if s.isOpen then
    let t := [Event.aboutToClose, Event.CloseHandle s.mSerial]
    let s := s.setOpenMode NotOpen
    let s := s.setErrorString ""
    let s := s.setInReadEventMode false
    { ret := (), dev := s, trace := t }
  else
    { ret := (), dev := s, trace := [] }

/-- What the operating system answers to one transfer call (`ReadFile` or
`WriteFile`) and to the `GetLastError` that may follow it. -/
structure TransferAnswers where
  /-- The byte count stored through the out-parameter when the call succeeds,
  nothing when the call returns `FALSE`. -/
  transferred : Option DWORD
  /-- The code `GetLastError` returns. -/
  lastError : DWORD

/-- Conversion of a `qint64` size to the `DWORD` parameter of a transfer call. -/
def toDWORD (n : Int) : DWORD := (n % 2 ^ 32).toNat

/-- The `error:` exit shared in shape by `readData` and `writeData`. -/
def transferError (fmt : DWORD → String) (dwErr : DWORD) (s : Serial) (trace : List Event) :
    Outcome Int :=
  { ret := -1, dev := s.setErrorString (fmt dwErr),
    trace := trace ++ [Event.GetLastError dwErr, Event.FormatMessage dwErr, Event.LocalFree] }

/-- The method `Serial::readData`; `data` is only written to and is left out. -/
def Serial.readData (fmt : DWORD → String) (os : TransferAnswers) (s : Serial)
    (maxSize : Int) : Outcome Int :=
  let t := [Event.ReadFile s.mSerial (toDWORD maxSize) os.transferred]
  match os.transferred with
  | none => transferError fmt os.lastError s t
  | some dwRead => { ret := (dwRead : Int), dev := s, trace := t }

/-- The method `Serial::writeData`. -/
def Serial.writeData (fmt : DWORD → String) (os : TransferAnswers) (s : Serial)
    (data : List Nat) (maxSize : Int) : Outcome Int :=
  let t := [Event.WriteFile s.mSerial data (toDWORD maxSize) os.transferred]
  match os.transferred with
  | none => transferError fmt os.lastError s t
  | some dwWritten => { ret := (dwWritten : Int), dev := s, trace := t }

/-- The method `Serial::waitForReadyRead`. -/
def Serial.waitForReadyRead (s : Serial) (_msecs : Int) : Outcome Bool :=
  { ret := false, dev := s, trace := [] }

/-- The method `Serial::setDTR`; `escapeOk` is what `EscapeCommFunction` answers. -/
def Serial.setDTR (escapeOk : Bool) (s : Serial) (enable : Bool) : Outcome Bool :=
  if !s.isOpen then
    { ret := false, dev := s, trace := [] }
  else
    { ret := escapeOk, dev := s,
      trace := [Event.EscapeCommFunction s.mSerial (if enable then SETDTR else CLRDTR) escapeOk] }

/-- Modelled from the spec: `read` is `QIODevice::read`, which class `Serial`
inherits through `Serial.h`; neither is among the sources.  The spec has `read`
valid only on an open device and failing on a closed one: the call is refused
with -1, before anything else happens, when the open mode lacks the `ReadOnly`
flag, as it does on a closed device; otherwise the bytes come from the hook
`readData` (the buffering in between is left out). -/
def Serial.read (fmt : DWORD → String) (os : TransferAnswers) (s : Serial)
    (maxSize : Int) : Outcome Int :=
  if s.openMode &&& ReadOnly = 0 then
    { ret := -1, dev := s, trace := [] }
  else
    Serial.readData fmt os s maxSize

/-- Modelled from the spec: `write` is `QIODevice::write`, inherited like
`read`.  The call is refused with -1, before anything else happens, when the
open mode lacks the `WriteOnly` flag, as it does on a closed device; otherwise
the bytes go to the hook `writeData`. -/
def Serial.write (fmt : DWORD → String) (os : TransferAnswers) (s : Serial)
    (data : List Nat) (maxSize : Int) : Outcome Int :=
  if s.openMode &&& WriteOnly = 0 then
    { ret := -1, dev := s, trace := [] }
  else
    Serial.writeData fmt os s data maxSize

/-! ## The device together with the handles the operating system holds -/

/-- The device and the handles currently held open by the operating system on
its behalf: a handle enters the list when `CreateFile` returns it and leaves it
when `CloseHandle` is called on it. -/
structure World where
  dev : Serial
  live : List HANDLE

/-- The stored handle is valid: it is not the invalid marker and it has not been
released. -/
def World.handleValid (w : World) : Bool :=
  decide (w.dev.mSerial ≠ INVALID_SERIAL_DESCRIPTOR) && decide (w.dev.mSerial ∈ w.live)

/-- The data-model invariant: the stored handle is valid exactly when the open
mode is not `NotOpen`. -/
def World.Inv (w : World) : Prop := w.handleValid = true ↔ w.dev.isOpen = true

/-- A call of one of the six operations, with the answers the operating system
gives during it. -/
inductive Call where
  | doOpen (os : OpenAnswers) (mode : OpenMode)
  | doClose
  | doReadData (os : TransferAnswers) (maxSize : Int)
  | doWriteData (os : TransferAnswers) (data : List Nat) (maxSize : Int)
  | doWaitForReadyRead (msecs : Int)
  | doSetDTR (escapeOk : Bool) (enable : Bool)

/-- The world after a method call: the device it leaves and the handles still
held once its events have happened. -/
def World.after {α : Type} (w : World) (o : Outcome α) : World :=
  { dev := o.dev, live := liveAfter w.live o.trace }

/-- One call on the device. -/
def World.step (fmt : DWORD → String) (w : World) : Call → World
  | .doOpen os mode => w.after (Serial.open fmt os w.dev mode)
  | .doClose => w.after (Serial.close w.dev)
  | .doReadData os maxSize => w.after (Serial.readData fmt os w.dev maxSize)
  | .doWriteData os data maxSize => w.after (Serial.writeData fmt os w.dev data maxSize)
  | .doWaitForReadyRead msecs => w.after (Serial.waitForReadyRead w.dev msecs)
  | .doSetDTR escapeOk enable => w.after (Serial.setDTR escapeOk w.dev enable)

/-- A sequence of calls on the device, first call first. -/
def World.run (fmt : DWORD → String) (w : World) (calls : List Call) : World :=
  calls.foldl (World.step fmt) w

/-! ## Sample values -/

/-- A sample error translation: the decimal code behind a fixed word. -/
def sampleFormat (code : DWORD) : String := "error " ++ toString code

/-- A sample control block, all fields zero except a few. -/
def sampleDCB : DCB :=
  { DCBlength := 28, BaudRate := 1200, fBinary := 1, fParity := 0, fOutxCtsFlow := 0,
    fOutxDsrFlow := 0, fDtrControl := 1, fDsrSensitivity := 0, fTXContinueOnXoff := 0,
    fOutX := 0, fInX := 0, fErrorChar := 0, fNull := 0, fRtsControl := 1, fAbortOnError := 0,
    fDummy2 := 0, wReserved := 0, XonLim := 2048, XoffLim := 512, ByteSize := 8, Parity := 0,
    StopBits := 0, XonChar := 17, XoffChar := 19, ErrorChar := 0, EofChar := 0, EvtChar := 0,
    wReserved1 := 0 }

/-- Answers of an operating system on which every call of `open` succeeds. -/
def answersOk : OpenAnswers :=
  { createFile := 44, getCommState := some sampleDCB, setCommState := true, lastError := 0 }

/-- Answers of an operating system on which `GetCommState` fails. -/
def answersNoState : OpenAnswers :=
  { createFile := 44, getCommState := none, setCommState := true, lastError := 87 }

/-- A device on `COM3` at 9600 baud that has been opened for reading and writing. -/
def openedDevice : Serial :=
  (Serial.open sampleFormat answersOk (Serial.new "COM3" 9600) ReadWrite).dev

/-! # Lemmas -/

/-! ## Lemmas on message formatting -/

theorem arg_unknown_baud (a : String) :
    arg (tr "Unknown baud rate %0") a = "Unknown baud rate " ++ a := by
  apply String.ext
  simp [arg, tr, argChars]

theorem arg_already_open (p : String) :
    arg (tr "Device (%0) already open") p = "Device (" ++ p ++ ") already open" := by
  apply String.ext
  simp [arg, tr, argChars]

theorem baudSwitch_none (b : Int)
    (hb : b ∉ [300, 1200, 2400, 4800, 9600, 19200, 38400, 57600, 115200]) :
    baudSwitch b = none := by
  simp only [List.mem_cons, List.mem_singleton, List.not_mem_nil, or_false, not_or] at hb
  obtain ⟨h1, h2, h3, h4, h5, h6, h7, h8, h9⟩ := hb
  simp [baudSwitch, h1, h2, h3, h4, h5, h6, h7, h8, h9]

theorem baudSwitch_some (b : Int)
    (hb : b ∈ [300, 1200, 2400, 4800, 9600, 19200, 38400, 57600, 115200]) :
    ∃ c : DWORD, baudSwitch b = some c ∧ (c : Int) = b := by
  simp only [List.mem_cons, List.mem_singleton, List.not_mem_nil, or_false] at hb
  rcases hb with h | h | h | h | h | h | h | h | h <;> subst h <;>
    simp [baudSwitch, CBR_300, CBR_1200, CBR_2400, CBR_4800, CBR_9600, CBR_19200, CBR_38400,
      CBR_57600, CBR_115200]

/-! ## The two branches of `close` -/

theorem close_of_open (s : Serial) (h : s.isOpen = true) :
    Serial.close s =
      { ret := (),
        dev := { s with openMode := NotOpen, errorString := "", inReadEventMode := false },
        trace := [Event.aboutToClose, Event.CloseHandle s.mSerial] } := by
  simp only [Serial.close, h, if_true, Serial.setOpenMode, Serial.setErrorString,
    Serial.setInReadEventMode]

theorem close_of_closed (s : Serial) (h : s.isOpen = false) :
    Serial.close s = { ret := (), dev := s, trace := [] } := by
  simp [Serial.close, h]

/-! ## The branches of `open` -/

theorem open_of_open (fmt : DWORD → String) (os : OpenAnswers) (s : Serial) (mode : OpenMode)
    (h : s.isOpen = true) :
    Serial.open fmt os s mode =
      { ret := false,
        dev := { s with errorString := "Device (" ++ s.mPort ++ ") already open" },
        trace := [] } := by
  simp only [Serial.open, h, if_true, Serial.setErrorString, arg_already_open]

theorem open_of_baud_none (fmt : DWORD → String) (os : OpenAnswers) (s : Serial)
    (mode : OpenMode) (h : s.isOpen = false) (hb : baudSwitch s.mBaudRate = none) :
    Serial.open fmt os s mode =
      { ret := false,
        dev := { s with errorString := "Unknown baud rate " ++ toString s.mBaudRate },
        trace := [] } := by
  simp only [Serial.open, h, hb, Serial.setErrorString, arg_unknown_baud]
  simp

theorem open_of_createFile_invalid (fmt : DWORD → String) (os : OpenAnswers) (s : Serial)
    (mode : OpenMode) (c : DWORD) (h : s.isOpen = false) (hb : baudSwitch s.mBaudRate = some c)
    (h1 : os.createFile = INVALID_SERIAL_DESCRIPTOR) :
    Serial.open fmt os s mode =
      { ret := false,
        dev := { s with mSerial := INVALID_SERIAL_DESCRIPTOR, errorString := fmt os.lastError },
        trace := [Event.CreateFile s.mPort (desiredAccess mode) 0 OPEN_EXISTING
            FILE_FLAG_OVERLAPPED INVALID_SERIAL_DESCRIPTOR,
          Event.GetLastError os.lastError, Event.FormatMessage os.lastError, Event.LocalFree] } := by
  simp only [Serial.open, h, hb, h1, openError, Serial.setErrorString]
  simp

theorem open_of_getCommState_none (fmt : DWORD → String) (os : OpenAnswers) (s : Serial)
    (mode : OpenMode) (c : DWORD) (h : s.isOpen = false) (hb : baudSwitch s.mBaudRate = some c)
    (h1 : os.createFile ≠ INVALID_SERIAL_DESCRIPTOR) (h2 : os.getCommState = none) :
    Serial.open fmt os s mode =
      { ret := false,
        dev := { s with mSerial := INVALID_SERIAL_DESCRIPTOR, errorString := fmt os.lastError },
        trace := [Event.CreateFile s.mPort (desiredAccess mode) 0 OPEN_EXISTING
            FILE_FLAG_OVERLAPPED os.createFile,
          Event.GetCommState os.createFile false,
          Event.GetLastError os.lastError, Event.FormatMessage os.lastError, Event.LocalFree,
          Event.CloseHandle os.createFile] } := by
  simp only [Serial.open, h, hb, h1, h2, openError, Serial.setErrorString]
  simp [h1]

theorem open_of_setCommState_false (fmt : DWORD → String) (os : OpenAnswers) (s : Serial)
    (mode : OpenMode) (c : DWORD) (dcb : DCB) (h : s.isOpen = false)
    (hb : baudSwitch s.mBaudRate = some c)
    (h1 : os.createFile ≠ INVALID_SERIAL_DESCRIPTOR) (h2 : os.getCommState = some dcb)
    (h3 : os.setCommState = false) :
    Serial.open fmt os s mode =
      { ret := false,
        dev := { s with mSerial := INVALID_SERIAL_DESCRIPTOR, errorString := fmt os.lastError },
        trace := [Event.CreateFile s.mPort (desiredAccess mode) 0 OPEN_EXISTING
            FILE_FLAG_OVERLAPPED os.createFile,
          Event.GetCommState os.createFile true,
          Event.SetCommState os.createFile { dcb with BaudRate := c } false,
          Event.GetLastError os.lastError, Event.FormatMessage os.lastError, Event.LocalFree,
          Event.CloseHandle os.createFile] } := by
  simp only [Serial.open, h, hb, h1, h2, h3, openError, Serial.setErrorString]
  simp [h1]

theorem open_of_success (fmt : DWORD → String) (os : OpenAnswers) (s : Serial)
    (mode : OpenMode) (c : DWORD) (dcb : DCB) (h : s.isOpen = false)
    (hb : baudSwitch s.mBaudRate = some c)
    (h1 : os.createFile ≠ INVALID_SERIAL_DESCRIPTOR) (h2 : os.getCommState = some dcb)
    (h3 : os.setCommState = true) :
    Serial.open fmt os s mode =
      { ret := true,
        dev := { s with mSerial := os.createFile, openMode := mode },
        trace := [Event.CreateFile s.mPort (desiredAccess mode) 0 OPEN_EXISTING
            FILE_FLAG_OVERLAPPED os.createFile,
          Event.GetCommState os.createFile true,
          Event.SetCommState os.createFile { dcb with BaudRate := c } true] } := by
  simp only [Serial.open, h, hb, h1, h2, h3, Serial.setOpenMode]
  simp [h1]

/-! ## Preservation of the handle invariant -/

theorem inv_of_same (w w2 : World) (hs : w2.dev.mSerial = w.dev.mSerial)
    (hm : w2.dev.openMode = w.dev.openMode) (hl : w2.live = w.live) (hw : w.Inv) : w2.Inv := by
  simpa [World.Inv, World.handleValid, Serial.isOpen, hs, hm, hl] using hw

theorem open_preserves_inv (fmt : DWORD → String) (w : World) (os : OpenAnswers)
    (mode : OpenMode) (hmode : mode ≠ NotOpen) (hw : w.Inv) :
    (w.after (Serial.open fmt os w.dev mode)).Inv := by
  cases hopen : w.dev.isOpen with
  | true =>
    rw [open_of_open fmt os w.dev mode hopen]
    exact inv_of_same w _ rfl rfl rfl hw
  | false =>
    cases hsw : baudSwitch w.dev.mBaudRate with
    | none =>
      rw [open_of_baud_none fmt os w.dev mode hopen hsw]
      exact inv_of_same w _ rfl rfl rfl hw
    | some c =>
      by_cases h1 : os.createFile = INVALID_SERIAL_DESCRIPTOR
      · rw [open_of_createFile_invalid fmt os w.dev mode c hopen hsw h1]
        simpa [World.Inv, World.handleValid, World.after, Serial.isOpen] using hopen
      · cases h2 : os.getCommState with
        | none =>
          rw [open_of_getCommState_none fmt os w.dev mode c hopen hsw h1 h2]
          simpa [World.Inv, World.handleValid, World.after, Serial.isOpen] using hopen
        | some dcb =>
          cases h3 : os.setCommState with
          | false =>
            rw [open_of_setCommState_false fmt os w.dev mode c dcb hopen hsw h1 h2 h3]
            simpa [World.Inv, World.handleValid, World.after, Serial.isOpen] using hopen
          | true =>
            rw [open_of_success fmt os w.dev mode c dcb hopen hsw h1 h2 h3]
            simp [World.Inv, World.handleValid, World.after, Serial.isOpen, liveAfter,
              applyEvent, h1, hmode]

theorem close_preserves_inv (w : World) (hw : w.Inv) : (w.after (Serial.close w.dev)).Inv := by
  cases hopen : w.dev.isOpen with
  | true =>
    rw [close_of_open _ hopen]
    simp [World.Inv, World.handleValid, World.after, Serial.isOpen, liveAfter, applyEvent]
  | false =>
    rw [close_of_closed _ hopen]
    exact inv_of_same w _ rfl rfl rfl hw

theorem step_preserves_inv (fmt : DWORD → String) (w : World) (c : Call)
    (hc : ∀ os : OpenAnswers, c ≠ Call.doOpen os NotOpen) (hw : w.Inv) :
    (w.step fmt c).Inv := by
  cases c with
  | doOpen os mode =>
    exact open_preserves_inv fmt w os mode (fun h => hc os (by rw [h])) hw
  | doClose => exact close_preserves_inv w hw
  | doReadData os maxSize =>
    apply inv_of_same w _ _ _ _ hw <;>
      cases h : os.transferred <;>
      simp [World.step, World.after, Serial.readData, h, transferError, Serial.setErrorString,
        liveAfter, applyEvent]
  | doWriteData os data maxSize =>
    apply inv_of_same w _ _ _ _ hw <;>
      cases h : os.transferred <;>
      simp [World.step, World.after, Serial.writeData, h, transferError, Serial.setErrorString,
        liveAfter, applyEvent]
  | doWaitForReadyRead msecs =>
    exact inv_of_same w _ rfl rfl rfl hw
  | doSetDTR escapeOk enable =>
    apply inv_of_same w _ _ _ _ hw <;>
      cases h : w.dev.isOpen <;>
      simp [World.step, World.after, Serial.setDTR, h, liveAfter, applyEvent]

theorem run_preserves_inv (fmt : DWORD → String) (calls : List Call) :
    ∀ w : World, (∀ c ∈ calls, ∀ os : OpenAnswers, c ≠ Call.doOpen os NotOpen) → w.Inv →
      (w.run fmt calls).Inv := by
  induction calls with
  | nil => intro w _ hw; exact hw
  | cons c cs ih =>
    intro w hc hw
    have h1 : (w.step fmt c).Inv :=
      step_preserves_inv fmt w c (hc c (List.mem_cons_self c cs)) hw
    exact ih (w.step fmt c) (fun d hd => hc d (List.mem_cons_of_mem c hd)) h1

/-! ## The two branches of a transfer -/

theorem readData_of_failure (fmt : DWORD → String) (os : TransferAnswers) (s : Serial)
    (maxSize : Int) (h : os.transferred = none) :
    Serial.readData fmt os s maxSize =
      { ret := -1, dev := { s with errorString := fmt os.lastError },
        trace := [Event.ReadFile s.mSerial (toDWORD maxSize) none,
          Event.GetLastError os.lastError, Event.FormatMessage os.lastError, Event.LocalFree] } := by
  simp [Serial.readData, h, transferError, Serial.setErrorString]

theorem readData_of_success (fmt : DWORD → String) (os : TransferAnswers) (s : Serial)
    (maxSize : Int) (n : DWORD) (h : os.transferred = some n) :
    Serial.readData fmt os s maxSize =
      { ret := (n : Int), dev := s,
        trace := [Event.ReadFile s.mSerial (toDWORD maxSize) (some n)] } := by
  simp [Serial.readData, h]

theorem writeData_of_failure (fmt : DWORD → String) (os : TransferAnswers) (s : Serial)
    (data : List Nat) (maxSize : Int) (h : os.transferred = none) :
    Serial.writeData fmt os s data maxSize =
      { ret := -1, dev := { s with errorString := fmt os.lastError },
        trace := [Event.WriteFile s.mSerial data (toDWORD maxSize) none,
          Event.GetLastError os.lastError, Event.FormatMessage os.lastError, Event.LocalFree] } := by
  simp [Serial.writeData, h, transferError, Serial.setErrorString]

theorem writeData_of_success (fmt : DWORD → String) (os : TransferAnswers) (s : Serial)
    (data : List Nat) (maxSize : Int) (n : DWORD) (h : os.transferred = some n) :
    Serial.writeData fmt os s data maxSize =
      { ret := (n : Int), dev := s,
        trace := [Event.WriteFile s.mSerial data (toDWORD maxSize) (some n)] } := by
  simp [Serial.writeData, h]

theorem readData_ret_iff (fmt : DWORD → String) (os : TransferAnswers) (s : Serial)
    (maxSize : Int) : (Serial.readData fmt os s maxSize).ret = -1 ↔ os.transferred = none := by
  cases h : os.transferred with
  | none => simp [readData_of_failure fmt os s maxSize h]
  | some n =>
    rw [readData_of_success fmt os s maxSize n h]
    simp only [reduceCtorEq, iff_false]

theorem writeData_ret_iff (fmt : DWORD → String) (os : TransferAnswers) (s : Serial)
    (data : List Nat) (maxSize : Int) :
    (Serial.writeData fmt os s data maxSize).ret = -1 ↔ os.transferred = none := by
  cases h : os.transferred with
  | none => simp [writeData_of_failure fmt os s data maxSize h]
  | some n =>
    rw [writeData_of_success fmt os s data maxSize n h]
    simp only [reduceCtorEq, iff_false]

/-! # Properties stated by the specification -/

/-- C1: on every closed device, for every buffer, every size and every answer
the operating system would give, `read` and `write` return the sentinel -1 and
`setDTR` returns false for both values of `enable`; none of the three calls
reaches the operating system or changes the device.  A device that was open
and has been closed is such a device. -/
theorem closed_device_calls_fail (fmt : DWORD → String) (osR osW : TransferAnswers)
    (escapeOk enable : Bool) (s : Serial) (data : List Nat) (maxSize : Int)
    (hclosed : s.isOpen = false) :
    (Serial.read fmt osR s maxSize).ret = -1 ∧
    (Serial.read fmt osR s maxSize).trace = [] ∧
    (Serial.read fmt osR s maxSize).dev = s ∧
    (Serial.write fmt osW s data maxSize).ret = -1 ∧
    (Serial.write fmt osW s data maxSize).trace = [] ∧
    (Serial.write fmt osW s data maxSize).dev = s ∧
    (Serial.setDTR escapeOk s enable).ret = false ∧
    (Serial.setDTR escapeOk s enable).trace = [] ∧
    (Serial.setDTR escapeOk s enable).dev = s ∧
    (∀ d : Serial, (Serial.close d).dev.isOpen = false) := by
  have hm : s.openMode = NotOpen := by simpa [Serial.isOpen] using hclosed
  have hr : s.openMode &&& ReadOnly = 0 := by rw [hm]; decide
  have hw : s.openMode &&& WriteOnly = 0 := by rw [hm]; decide
  refine ⟨by simp [Serial.read, hr], by simp [Serial.read, hr], by simp [Serial.read, hr],
    by simp [Serial.write, hw], by simp [Serial.write, hw], by simp [Serial.write, hw],
    by simp [Serial.setDTR, hclosed], by simp [Serial.setDTR, hclosed],
    by simp [Serial.setDTR, hclosed], ?_⟩
  intro d
  cases h : d.isOpen with
  | false => rw [close_of_closed d h]; exact h
  | true => rw [close_of_open d h]; simp [Serial.isOpen]

theorem closed_device_calls_fail_witness :
    (Serial.read sampleFormat { transferred := some 4, lastError := 0 }
      (Serial.close openedDevice).dev 16).ret = -1 ∧
    (Serial.write sampleFormat { transferred := some 4, lastError := 0 }
      (Serial.close openedDevice).dev [1, 2, 3, 4] 4).ret = -1 ∧
    (Serial.setDTR true (Serial.close openedDevice).dev true).ret = false ∧
    (Serial.setDTR true (Serial.close openedDevice).dev false).ret = false :=
  have h1 := closed_device_calls_fail sampleFormat { transferred := some 4, lastError := 0 }
    { transferred := some 4, lastError := 0 } true true (Serial.close openedDevice).dev
    [1, 2, 3, 4] 16 (by decide)
  have h2 := closed_device_calls_fail sampleFormat { transferred := some 4, lastError := 0 }
    { transferred := some 4, lastError := 0 } true false (Serial.close openedDevice).dev
    [1, 2, 3, 4] 4 (by decide)
  ⟨h1.1, h2.2.2.2.1, h1.2.2.2.2.2.2.1, h2.2.2.2.2.2.2.1⟩

/-- C2: on a closed device whose baud rate is none of the nine enumerated
rates, `open` fails for every mode with the error string
`Unknown baud rate <rate>`, performs no operating-system call at all (so none
that acquires a handle), and leaves the device closed with its handle
untouched. -/
theorem open_unknown_baud_rate (fmt : DWORD → String) (os : OpenAnswers) (s : Serial)
    (mode : OpenMode) (hclosed : s.isOpen = false)
    (hbaud : s.mBaudRate ∉ [300, 1200, 2400, 4800, 9600, 19200, 38400, 57600, 115200]) :
    (Serial.open fmt os s mode).ret = false ∧
    (Serial.open fmt os s mode).dev.errorString = "Unknown baud rate " ++ toString s.mBaudRate ∧
    (Serial.open fmt os s mode).trace = [] ∧
    (Serial.open fmt os s mode).dev.isOpen = false ∧
    (Serial.open fmt os s mode).dev.mSerial = s.mSerial := by
  rw [open_of_baud_none fmt os s mode hclosed (baudSwitch_none s.mBaudRate hbaud)]
  refine ⟨rfl, rfl, rfl, ?_, rfl⟩
  simpa [Serial.isOpen] using hclosed

theorem open_unknown_baud_rate_witness :
    (Serial.open sampleFormat answersOk (Serial.new "COM3" 1000) ReadWrite).ret = false ∧
    (Serial.open sampleFormat answersOk (Serial.new "COM3" 1000) ReadWrite).dev.errorString
      = "Unknown baud rate 1000" ∧
    (Serial.open sampleFormat answersOk (Serial.new "COM3" 1000) ReadWrite).trace = [] :=
  have h := open_unknown_baud_rate sampleFormat answersOk (Serial.new "COM3" 1000) ReadWrite
    (by decide) (by decide)
  ⟨h.1, h.2.1, h.2.2.1⟩

/-- C3: on a device that is already open, `open` fails for every requested
mode with the error string `Device (<port>) already open`, which contains the
port name, performs no operating-system call, and leaves the stored handle and
the open mode as they were. -/
theorem open_already_open (fmt : DWORD → String) (os : OpenAnswers) (s : Serial)
    (mode : OpenMode) (hopen : s.isOpen = true) :
    (Serial.open fmt os s mode).ret = false ∧
    (Serial.open fmt os s mode).dev.errorString = "Device (" ++ s.mPort ++ ") already open" ∧
    (Serial.open fmt os s mode).trace = [] ∧
    (Serial.open fmt os s mode).dev.mSerial = s.mSerial ∧
    (Serial.open fmt os s mode).dev.openMode = s.openMode := by
  rw [open_of_open fmt os s mode hopen]
  exact ⟨rfl, rfl, rfl, rfl, rfl⟩

theorem open_already_open_witness :
    (Serial.open sampleFormat answersOk openedDevice WriteOnly).ret = false ∧
    (Serial.open sampleFormat answersOk openedDevice WriteOnly).dev.errorString
      = "Device (COM3) already open" ∧
    (Serial.open sampleFormat answersOk openedDevice WriteOnly).dev.mSerial = 44 ∧
    (Serial.open sampleFormat answersOk openedDevice WriteOnly).dev.openMode = ReadWrite :=
  have h := open_already_open sampleFormat answersOk openedDevice WriteOnly (by decide)
  ⟨h.1, h.2.1, h.2.2.2.1, h.2.2.2.2⟩

/-- C4: when `open` on a closed device with an enumerated baud rate fails,
whichever of `CreateFile`, `GetCommState` and `SetCommState` refused, every
handle acquired during the call has been released exactly once by the time it
returns and none is still held, the stored handle is the invalid marker, the
device is closed, and the error string is the translation of the code
`GetLastError` gave. -/
theorem open_failure_releases_handle (fmt : DWORD → String) (os : OpenAnswers) (s : Serial)
    (mode : OpenMode) (hclosed : s.isOpen = false)
    (hbaud : s.mBaudRate ∈ [300, 1200, 2400, 4800, 9600, 19200, 38400, 57600, 115200])
    (hfail : (Serial.open fmt os s mode).ret = false) :
    (∀ h : HANDLE, (∃ e ∈ (Serial.open fmt os s mode).trace, e.acquires h = true) →
      (Serial.open fmt os s mode).trace.countP (Event.releases h) = 1) ∧
    (∀ h : HANDLE, (Serial.open fmt os s mode).trace.countP (Event.releases h) ≤
      (Serial.open fmt os s mode).trace.countP (Event.acquires h)) ∧
    liveAfter [] (Serial.open fmt os s mode).trace = [] ∧
    (Serial.open fmt os s mode).dev.mSerial = INVALID_SERIAL_DESCRIPTOR ∧
    (Serial.open fmt os s mode).dev.isOpen = false ∧
    (Serial.open fmt os s mode).dev.errorString = fmt os.lastError := by
  obtain ⟨c, hc, -⟩ := baudSwitch_some s.mBaudRate hbaud
  by_cases h1 : os.createFile = INVALID_SERIAL_DESCRIPTOR
  · rw [open_of_createFile_invalid fmt os s mode c hclosed hc h1]
    simp [Event.acquires, Event.releases, liveAfter, applyEvent, Serial.isOpen,
      List.countP_cons]
    simpa [Serial.isOpen] using hclosed
  · cases h2 : os.getCommState with
    | none =>
      rw [open_of_getCommState_none fmt os s mode c hclosed hc h1 h2]
      simp [Event.acquires, Event.releases, liveAfter, applyEvent, Serial.isOpen,
        List.countP_cons, h1]
      simpa [Serial.isOpen] using hclosed
    | some dcb =>
      cases h3 : os.setCommState with
      | true =>
        rw [open_of_success fmt os s mode c dcb hclosed hc h1 h2 h3] at hfail
        simp at hfail
      | false =>
        rw [open_of_setCommState_false fmt os s mode c dcb hclosed hc h1 h2 h3]
        simp [Event.acquires, Event.releases, liveAfter, applyEvent, Serial.isOpen,
          List.countP_cons, h1]
        simpa [Serial.isOpen] using hclosed

theorem open_failure_releases_handle_witness :
    (Serial.open sampleFormat answersNoState (Serial.new "COM3" 9600) ReadWrite).trace.countP
      (Event.releases 44) = 1 ∧
    (Serial.open sampleFormat answersNoState (Serial.new "COM3" 9600) ReadWrite).dev.mSerial
      = INVALID_SERIAL_DESCRIPTOR ∧
    (Serial.open sampleFormat answersNoState (Serial.new "COM3" 9600) ReadWrite).dev.errorString
      = "error 87" :=
  have h := open_failure_releases_handle sampleFormat answersNoState (Serial.new "COM3" 9600)
    ReadWrite (by decide) (by decide) (by decide)
  ⟨h.1 44 ⟨Event.CreateFile "COM3" GENERIC_READ 0 OPEN_EXISTING FILE_FLAG_OVERLAPPED 44,
    by decide, by decide⟩, h.2.2.2.1, h.2.2.2.2.2⟩

/-- C5: `close` on an open device produces exactly two events, the
`aboutToClose` notification first and the release of the stored handle second,
and afterwards the open mode is `NotOpen`, the error string is empty and
read-event mode is off. -/
theorem close_open_device (s : Serial) (hopen : s.isOpen = true) :
    (Serial.close s).trace = [Event.aboutToClose, Event.CloseHandle s.mSerial] ∧
    (Serial.close s).dev.openMode = NotOpen ∧
    (Serial.close s).dev.isOpen = false ∧
    (Serial.close s).dev.errorString = "" ∧
    (Serial.close s).dev.inReadEventMode = false := by
  rw [close_of_open s hopen]
  simp [Serial.isOpen]

theorem close_open_device_witness :
    (Serial.close openedDevice).trace = [Event.aboutToClose, Event.CloseHandle 44] ∧
    (Serial.close openedDevice).dev.openMode = NotOpen ∧
    (Serial.close openedDevice).dev.isOpen = false ∧
    (Serial.close openedDevice).dev.errorString = "" ∧
    (Serial.close openedDevice).dev.inReadEventMode = false :=
  close_open_device openedDevice (by decide)

/-- C6: `close` is idempotent on every device state, the second `close`
producing no event; and on a closed device `close` changes no field, emits no
notification and performs no operating-system call. -/
theorem close_idempotent (s : Serial) :
    (Serial.close (Serial.close s).dev).dev = (Serial.close s).dev ∧
    (Serial.close (Serial.close s).dev).trace = [] ∧
    (s.isOpen = false → (Serial.close s).dev = s ∧ (Serial.close s).trace = []) := by
  cases h : s.isOpen
  · simp [close_of_closed s h]
  · have h2 : ({ s with openMode := NotOpen, errorString := "", inReadEventMode := false }
        : Serial).isOpen = false := by simp [Serial.isOpen]
    rw [close_of_open s h]
    simp [close_of_closed _ h2]

theorem close_idempotent_witness :
    (Serial.new "COM3" 9600).isOpen = false ∧
    (Serial.close (Serial.new "COM3" 9600)).dev = Serial.new "COM3" 9600 ∧
    (Serial.close (Serial.new "COM3" 9600)).trace = [] :=
  ⟨by decide, (close_idempotent (Serial.new "COM3" 9600)).2.2 (by decide)⟩

/-- C7 (as stated, refuted): a freshly constructed device satisfies the
invariant, and `open` called on it with the empty flag set `NotOpen`, the
operating system granting every request, returns true and leaves a state that
violates it: the stored handle 44 is held and not released while the open mode
is still `NotOpen`; a `close` after it changes nothing and the handle stays
held. -/
theorem handle_invariant_broken_by_open_NotOpen :
    World.Inv (World.mk (Serial.new "COM3" 9600) []) ∧
    (Serial.open sampleFormat answersOk (Serial.new "COM3" 9600) NotOpen).ret = true ∧
    ¬ World.Inv ((World.mk (Serial.new "COM3" 9600) []).step sampleFormat
      (.doOpen answersOk NotOpen)) ∧
    ¬ World.Inv ((World.mk (Serial.new "COM3" 9600) []).run sampleFormat
      [.doOpen answersOk NotOpen, .doClose]) ∧
    ((World.mk (Serial.new "COM3" 9600) []).run sampleFormat
      [.doOpen answersOk NotOpen, .doClose]).live = [44] := by
  unfold World.Inv
  decide

/-- C7 (amended): the invariant "the stored handle is valid (not the invalid
marker and not released) exactly when the open mode is not closed" holds for a
freshly constructed device and is preserved, under every answer of the
operating system, by `close`, `readData`, `writeData`, `waitForReadyRead`,
`setDTR` and by `open` with any mode other than the empty flag set `NotOpen`;
hence it holds after every sequence of such calls, in particular after `open`
followed by `close`. -/
theorem handle_valid_iff_open (fmt : DWORD → String) :
    (∀ port baudRate live, World.Inv { dev := Serial.new port baudRate, live := live }) ∧
    (∀ (w : World) (c : Call), (∀ os : OpenAnswers, c ≠ Call.doOpen os NotOpen) → w.Inv →
      (w.step fmt c).Inv) ∧
    (∀ port baudRate live (calls : List Call),
      (∀ c ∈ calls, ∀ os : OpenAnswers, c ≠ Call.doOpen os NotOpen) →
      ((World.mk (Serial.new port baudRate) live).run fmt calls).Inv) ∧
    (∀ port baudRate live os mode, mode ≠ NotOpen →
      ((World.mk (Serial.new port baudRate) live).run fmt
        [.doOpen os mode, .doClose]).Inv) := by
  have hfresh : ∀ port baudRate live,
      World.Inv { dev := Serial.new port baudRate, live := live } := by
    intro port baudRate live
    simp [World.Inv, World.handleValid, Serial.new, Serial.isOpen]
  have hrun : ∀ port baudRate live (calls : List Call),
      (∀ c ∈ calls, ∀ os : OpenAnswers, c ≠ Call.doOpen os NotOpen) →
      ((World.mk (Serial.new port baudRate) live).run fmt calls).Inv :=
    fun port baudRate live calls hc =>
      run_preserves_inv fmt calls _ hc (hfresh port baudRate live)
  refine ⟨hfresh, fun w c hc hw => step_preserves_inv fmt w c hc hw, hrun, ?_⟩
  intro port baudRate live os mode hmode
  apply hrun
  intro c hc os2 h
  simp only [List.mem_cons, List.mem_singleton, List.not_mem_nil, or_false] at hc
  rcases hc with hc | hc
  · rw [hc] at h
    injection h with _ h2
    exact hmode h2
  · rw [hc] at h
    cases h

theorem handle_valid_iff_open_witness :
    ((World.mk (Serial.new "COM3" 9600) []).run sampleFormat
      [.doOpen answersOk ReadWrite, .doClose]).Inv :=
  (handle_valid_iff_open sampleFormat).2.2.2 "COM3" 9600 [] answersOk ReadWrite (by decide)

/-- C8: when `open` succeeds on a closed device with an enumerated baud rate,
its events are `CreateFile`, `GetCommState` and one `SetCommState`, and the
control block handed to `SetCommState` is the one `GetCommState` returned for
that handle with the field `BaudRate` alone replaced, by the `CBR_` constant of
the device's baud rate; each of the nine rates has its own constant. -/
theorem open_success_control_block (fmt : DWORD → String) (os : OpenAnswers) (s : Serial)
    (mode : OpenMode) (hclosed : s.isOpen = false)
    (hbaud : s.mBaudRate ∈ [300, 1200, 2400, 4800, 9600, 19200, 38400, 57600, 115200])
    (hok : (Serial.open fmt os s mode).ret = true) :
    (∃ (dcb : DCB) (c : DWORD),
      os.getCommState = some dcb ∧ baudSwitch s.mBaudRate = some c ∧ (c : Int) = s.mBaudRate ∧
      (Serial.open fmt os s mode).trace =
        [Event.CreateFile s.mPort (desiredAccess mode) 0 OPEN_EXISTING FILE_FLAG_OVERLAPPED
            os.createFile,
          Event.GetCommState os.createFile true,
          Event.SetCommState os.createFile { dcb with BaudRate := c } true]) ∧
    List.map baudSwitch [300, 1200, 2400, 4800, 9600, 19200, 38400, 57600, 115200] =
      [some CBR_300, some CBR_1200, some CBR_2400, some CBR_4800, some CBR_9600,
        some CBR_19200, some CBR_38400, some CBR_57600, some CBR_115200] ∧
    [CBR_300, CBR_1200, CBR_2400, CBR_4800, CBR_9600, CBR_19200, CBR_38400, CBR_57600,
      CBR_115200].Nodup := by
  refine ⟨?_, by decide, by decide⟩
  obtain ⟨c, hc, hcb⟩ := baudSwitch_some s.mBaudRate hbaud
  by_cases h1 : os.createFile = INVALID_SERIAL_DESCRIPTOR
  · rw [open_of_createFile_invalid fmt os s mode c hclosed hc h1] at hok
    simp at hok
  · cases h2 : os.getCommState with
    | none =>
      rw [open_of_getCommState_none fmt os s mode c hclosed hc h1 h2] at hok
      simp at hok
    | some dcb =>
      cases h3 : os.setCommState with
      | false =>
        rw [open_of_setCommState_false fmt os s mode c dcb hclosed hc h1 h2 h3] at hok
        simp at hok
      | true =>
        refine ⟨dcb, c, rfl, hc, hcb, ?_⟩
        rw [open_of_success fmt os s mode c dcb hclosed hc h1 h2 h3]

theorem open_success_control_block_witness :
    ∃ (dcb : DCB) (c : DWORD),
      answersOk.getCommState = some dcb ∧ baudSwitch 9600 = some c ∧ (c : Int) = 9600 ∧
      (Serial.open sampleFormat answersOk (Serial.new "COM3" 9600) ReadWrite).trace =
        [Event.CreateFile "COM3" (desiredAccess ReadWrite) 0 OPEN_EXISTING FILE_FLAG_OVERLAPPED
            44,
          Event.GetCommState 44 true,
          Event.SetCommState 44 { dcb with BaudRate := c } true] :=
  (open_success_control_block sampleFormat answersOk (Serial.new "COM3" 9600) ReadWrite
    (by decide) (by decide) (by decide)).1

/-- C9: on an open device `readData` and `writeData` return -1 exactly when
the transfer call of the operating system reports failure, and then the error
string is the translation of the code `GetLastError` gave; otherwise they
return exactly the byte count reported, which is not negative (so 0 bytes give
0, never -1), and leave the whole device, in particular error string, handle
and open mode, unchanged; in either case the device stays open. -/
theorem transfer_on_open_device (fmt : DWORD → String) (osR osW : TransferAnswers)
    (s : Serial) (data : List Nat) (maxSize : Int) (hopen : s.isOpen = true) :
    ((Serial.readData fmt osR s maxSize).ret = -1 ↔ osR.transferred = none) ∧
    ((Serial.writeData fmt osW s data maxSize).ret = -1 ↔ osW.transferred = none) ∧
    (osR.transferred = none →
      (Serial.readData fmt osR s maxSize).dev.errorString = fmt osR.lastError) ∧
    (osW.transferred = none →
      (Serial.writeData fmt osW s data maxSize).dev.errorString = fmt osW.lastError) ∧
    (∀ n : DWORD, osR.transferred = some n →
      (Serial.readData fmt osR s maxSize).ret = (n : Int) ∧
      0 ≤ (Serial.readData fmt osR s maxSize).ret ∧
      (Serial.readData fmt osR s maxSize).dev = s) ∧
    (∀ n : DWORD, osW.transferred = some n →
      (Serial.writeData fmt osW s data maxSize).ret = (n : Int) ∧
      0 ≤ (Serial.writeData fmt osW s data maxSize).ret ∧
      (Serial.writeData fmt osW s data maxSize).dev = s) ∧
    (Serial.readData fmt osR s maxSize).dev.isOpen = true ∧
    (Serial.writeData fmt osW s data maxSize).dev.isOpen = true := by
  refine ⟨readData_ret_iff fmt osR s maxSize, writeData_ret_iff fmt osW s data maxSize,
    ?_, ?_, ?_, ?_, ?_, ?_⟩
  · intro h
    rw [readData_of_failure fmt osR s maxSize h]
  · intro h
    rw [writeData_of_failure fmt osW s data maxSize h]
  · intro n h
    rw [readData_of_success fmt osR s maxSize n h]
    exact ⟨rfl, Int.ofNat_nonneg n, rfl⟩
  · intro n h
    rw [writeData_of_success fmt osW s data maxSize n h]
    exact ⟨rfl, Int.ofNat_nonneg n, rfl⟩
  · cases h : osR.transferred with
    | none =>
      rw [readData_of_failure fmt osR s maxSize h]
      simpa [Serial.isOpen] using hopen
    | some n =>
      rw [readData_of_success fmt osR s maxSize n h]
      exact hopen
  · cases h : osW.transferred with
    | none =>
      rw [writeData_of_failure fmt osW s data maxSize h]
      simpa [Serial.isOpen] using hopen
    | some n =>
      rw [writeData_of_success fmt osW s data maxSize n h]
      exact hopen

theorem transfer_on_open_device_witness :
    (Serial.readData sampleFormat { transferred := some 0, lastError := 0 } openedDevice
      16).ret = 0 ∧
    (Serial.writeData sampleFormat { transferred := none, lastError := 5 } openedDevice
      [1, 2] 2).dev.errorString = "error 5" :=
  ⟨((transfer_on_open_device sampleFormat { transferred := some 0, lastError := 0 }
      { transferred := none, lastError := 5 } openedDevice [1, 2] 16
      (by decide)).2.2.2.2.1 0 rfl).1,
   (transfer_on_open_device sampleFormat { transferred := some 0, lastError := 0 }
      { transferred := none, lastError := 5 } openedDevice [1, 2] 2
      (by decide)).2.2.2.1 rfl⟩

/-- C10 (evaluation of the code): opening a closed device at 9600 baud in mode
`WriteOnly` asks `CreateFile` for `GENERIC_READ`, which does not contain
`GENERIC_WRITE`; for no mode at all does the requested access contain
`GENERIC_WRITE`, and `ReadWrite` asks for read access only. -/
theorem open_write_only_access (fmt : DWORD → String) (os : OpenAnswers) :
    (Serial.open fmt os (Serial.new "COM3" 9600) WriteOnly).trace.head? =
      some (Event.CreateFile "COM3" GENERIC_READ 0 OPEN_EXISTING FILE_FLAG_OVERLAPPED
        os.createFile) ∧
    GENERIC_READ &&& GENERIC_WRITE = 0 ∧
    desiredAccess ReadWrite = GENERIC_READ ∧
    (∀ mode : OpenMode, desiredAccess mode &&& GENERIC_WRITE = 0) := by
  refine ⟨?_, by decide, by decide, ?_⟩
  · have hclosed : (Serial.new "COM3" 9600).isOpen = false := by decide
    have hb : baudSwitch (Serial.new "COM3" 9600).mBaudRate = some CBR_9600 := by decide
    have hacc : desiredAccess WriteOnly = GENERIC_READ := by decide
    by_cases h1 : os.createFile = INVALID_SERIAL_DESCRIPTOR
    · rw [open_of_createFile_invalid fmt os _ WriteOnly _ hclosed hb h1, hacc, h1]
      rfl
    · cases h2 : os.getCommState with
      | none =>
        rw [open_of_getCommState_none fmt os _ WriteOnly _ hclosed hb h1 h2, hacc]
        rfl
      | some dcb =>
        cases h3 : os.setCommState with
        | false =>
          rw [open_of_setCommState_false fmt os _ WriteOnly _ dcb hclosed hb h1 h2 h3, hacc]
          rfl
        | true =>
          rw [open_of_success fmt os _ WriteOnly _ dcb hclosed hb h1 h2 h3, hacc]
          rfl
  · intro mode
    unfold desiredAccess
    split_ifs <;> decide

end Arduide
